import Mathlib

/-!
Verification of the rs-drivelist device enumeration library.

The development shallowly embeds the three source files:
  - `src/rs-drivelist/src/device.rs` : the `DeviceDescriptor` / `MountPoint`
    value types and their defaults;
  - `src/src/pal/macos.rs` : the structured-listing probe (`diskutil`);
  - `src/src/pal/windows.rs` : the native-query probe (`get_detail_data`,
    `get_device_number`, `get_mount_points`, `get_available_volumes`,
    the property battery and partition-table classification).

Native calls (DeviceIoControl queries, CreateFile, GetLogicalDrives,
subprocess spawning, plist parsing) are modelled as environment records
holding each call's outcome; the embedded functions consume those
environments with exactly the source's control flow.  Rust panics
(`panic!`, `.unwrap()`) are modelled as an explicit `panicked` outcome.
Win32 handles are modelled as allocated naturals tracked in an explicit
handle state, so that leak/release behaviour is provable.
-/

/-! ## Device model (src/rs-drivelist/src/device.rs) -/

structure MountPoint where
  path : String
  label : Option String
  totalBytes : Option Nat
  availableBytes : Option Nat
deriving Repr, DecidableEq

/-- `MountPoint::new(path)`: path only, all other fields unset. -/
def MountPoint.new (path : String) : MountPoint :=
  { path := path, label := none, totalBytes := none, availableBytes := none }

structure DeviceDescriptor where
  enumerator : String
  busType : Option String
  busVersion : Option String
  device : String
  devicePath : Option String
  raw : String
  description : String
  error : Option String
  partitionTableType : Option String
  size : Nat
  blockSize : Nat
  logicalBlockSize : Nat
  mountpoints : List MountPoint
  mountpointLabels : List String
  isReadOnly : Bool
  isSystem : Bool
  isCard : Bool
  isSCSI : Bool
  isUSB : Bool
  isVirtual : Bool
  isRemovable : Bool
  isUAS : Option Bool
deriving Repr, DecidableEq

/-- The `#[derivative(Default)]` instance of `DeviceDescriptor`:
`blockSize = logicalBlockSize = 512`, everything else empty/false/none. -/
def DeviceDescriptor.default : DeviceDescriptor :=
  { enumerator := "", busType := none, busVersion := none, device := ""
    devicePath := none, raw := "", description := "", error := none
    partitionTableType := none, size := 0, blockSize := 512
    logicalBlockSize := 512, mountpoints := [], mountpointLabels := []
    isReadOnly := false, isSystem := false, isCard := false, isSCSI := false
    isUSB := false, isVirtual := false, isRemovable := false, isUAS := none }

/-! ## Structured-listing probe (src/src/pal/macos.rs) -/

/-- A `Partition` record parsed from the plist output. -/
structure Partition where
  mount_point : Option String
  content : String
  size : Nat
deriving Repr, DecidableEq

/-- A top-level `Disk` record parsed from the plist output. -/
structure Disk where
  device_identifier : String
  os_internal : Bool
  size : Nat
  content : String
  partitions : List Partition
deriving Repr, DecidableEq

/-- The whole parsed plist (`AllDisksAndPartitions`). -/
structure Disks where
  all_disks_and_partitions : List Disk
deriving Repr, DecidableEq

/-- `impl From<Partition> for MountPoint` in macos.rs. -/
def MountPoint.fromPartition (value : Partition) : MountPoint :=
  { path := value.mount_point.getD ""
    label := some value.content
    totalBytes := some value.size
    availableBytes := none }

/-- `impl From<Disk> for DeviceDescriptor` in macos.rs: all fields not listed
come from `..Default::default()`. -/
def DeviceDescriptor.fromDisk (value : Disk) : DeviceDescriptor :=
  { DeviceDescriptor.default with
    enumerator := "diskutil"
    description := value.content
    size := value.size
    mountpoints := value.partitions.map MountPoint.fromPartition
    device := "/dev/" ++ value.device_identifier
    raw := "/dev/r" ++ value.device_identifier
    isSystem := value.os_internal
    isRemovable := !value.os_internal }

/-- Outcome of `Command::new("diskutil").args(["list", "-plist"]).output()`
followed by the status check and `plist::from_bytes(&output.stdout)`:
the outer `Except` is the spawn (`output()?`) failure, `statusSuccess` is
`output.status.success()`, and `stdoutParse` is the plist parse of the
captured stdout. -/
structure CommandOutput where
  statusSuccess : Bool
  stdoutParse : Except String Disks

structure DiskutilEnv where
  output : Except String CommandOutput

/-- Result of running `diskutil()`: `ok` = `Ok(vec)`, `err` = the function
returned `Err(..)`, `panicked` = the function panicked (Rust `unwrap`). -/
inductive DiskutilResult where
  | ok (devices : List DeviceDescriptor)
  | err (msg : String)
  | panicked (msg : String)
deriving Repr, DecidableEq

def DiskutilResult.isError : DiskutilResult → Bool
  | .err _ => true
  | _ => false

/-- `pub(crate) fn diskutil()` from macos.rs.  Note the source calls
`plist::from_bytes(&output.stdout).unwrap()`: a parse failure is a panic,
not a returned error. -/
def diskutil (env : DiskutilEnv) : DiskutilResult :=
  match env.output with
  | .error e => .err e
  | .ok output =>
    if !output.statusSuccess then
      .err "diskutil fail"
    else
      match output.stdoutParse with
      | .error e => .panicked ("called Result::unwrap() on an Err value: " ++ e)
      | .ok parsed =>
        .ok (parsed.all_disks_and_partitions.map DeviceDescriptor.fromDisk)

/-! ## Native-query probe (src/src/pal/windows.rs) -/

/-- winbase.h drive-type constants used by `get_mount_points`. -/
def DRIVE_REMOVABLE : Nat := 2

def DRIVE_FIXED : Nat := 3

/-- winioctl.h partition-style constants. -/
def PARTITION_STYLE_MBR : Nat := 0

def PARTITION_STYLE_GPT : Nat := 1

/-- A Win32 `DWORD` value cast `as i32` (two's complement reinterpretation). -/
def dwordAsI32 (x : Nat) : Int :=
  if x % 2 ^ 32 < 2 ^ 31 then ((x % 2 ^ 32 : Nat) : Int)
  else ((x % 2 ^ 32 : Nat) : Int) - 2 ^ 32

/-- An `i64` value cast `as u64` (two's complement reinterpretation). -/
def i64AsU64 (q : Int) : Nat := (q % (2 : Int) ^ 64).toNat

/-- `fn get_available_volumes()`: walk the `GetLogicalDrives()` bitmask from
bit 0 upward, pushing `current_drive_letter as char` for each set bit.
`letter` starts at 65 (`b'A'`) and is incremented once per bit. -/
def get_available_volumes_go (mask : Nat) (letter : Nat) : List Char :=
  if mask = 0 then []
  else
    (if mask % 2 = 1 then [Char.ofNat letter] else []) ++
      get_available_volumes_go (mask / 2) (letter + 1)
termination_by mask
decreasing_by exact Nat.div_lt_self (Nat.pos_of_ne_zero (by assumption)) (by omega)

def get_available_volumes (logicalDriveMask : Nat) : List Char :=
  get_available_volumes_go (logicalDriveMask % 2 ^ 32) 65

/-- Outcome of the `IOCTL_VOLUME_GET_VOLUME_DISK_EXTENTS` query when it
succeeds: the `NumberOfDiskExtents` count and `Extents[0].DiskNumber`. -/
structure ExtentsResult where
  numberOfDiskExtents : Nat
  extent0DiskNumber : Nat
deriving Repr, DecidableEq

/-- The two native query outcomes `fn get_device_number` consumes:
`none` models a failed `DeviceIoControl` call. -/
structure DevNumEnv where
  extentsResult : Option ExtentsResult
  deviceNumberResult : Option Nat
deriving Repr, DecidableEq

/-- `fn get_device_number(h_device)`: `disk_number` starts at `-1`; a
successful extents query with `NumberOfDiskExtents >= 2` returns `-1` at
once (before the second query); otherwise the extent's `DiskNumber as i32`
is taken, and a successful `IOCTL_STORAGE_GET_DEVICE_NUMBER` query
overwrites it with `DeviceNumber as i32`. -/
def get_device_number (env : DevNumEnv) : Int :=
  match env.extentsResult with
  | some de =>
    if de.numberOfDiskExtents ≥ 2 then
      -1
    else
      match env.deviceNumberResult with
      | some dn => dwordAsI32 dn
      | none => dwordAsI32 de.extent0DiskNumber
  | none =>
    match env.deviceNumberResult with
    | some dn => dwordAsI32 dn
    | none => -1

/-! ### Handle tracking

Win32 handles are modelled as naturals allocated by `HState.openNew`
(a successful `CreateFileA`/`CreateFileW`) and removed from the live set
by `HState.close` (`CloseHandle`).  A handle left in `live` at the end of
a call is a leak. -/

structure HState where
  next : Nat
  live : List Nat
deriving Repr, DecidableEq

def HState.init : HState := { next := 0, live := [] }

def HState.openNew (s : HState) : Nat × HState :=
  (s.next, { next := s.next + 1, live := s.next :: s.live })

def HState.close (s : HState) (h : Nat) : HState :=
  { next := s.next, live := s.live.erase h }

/-- `GetDiskFreeSpaceW` output for a volume root. -/
structure FreeSpace where
  sectorsPerCluster : Nat
  bytesPerSector : Nat
  numberOfFreeClusters : Nat
  totalNumberOfClusters : Nat
deriving Repr, DecidableEq

/-- Per-volume-letter native outcomes consumed by `get_mount_points`:
`driveType` is `GetDriveTypeA`, `openOk` whether `CreateFileA` on
`\\.\<letter>:` succeeds, `devNum` feeds `get_device_number`,
`volumePathName` is `GetVolumePathNameW` (error payload = the formatted
`last_os_error`), and `diskFreeSpace` is `GetDiskFreeSpaceW` applied to
the resolved root path. -/
structure VolumeEnv where
  driveType : Nat
  openOk : Bool
  devNum : DevNumEnv
  volumePathName : Except String String
  diskFreeSpace : String → Except String FreeSpace

structure MountEnv where
  logicalDriveMask : Nat
  volumes : Char → VolumeEnv

/-- What `fn get_mount_points` leaves behind: `err = some msg` when it
returned `Err(msg)` early, the mount points pushed so far (pushed directly
into the caller's vector, so retained even on `Err`), and the handle
state. -/
structure MPResult where
  err : Option String
  points : List MountPoint
  hs : HState
deriving Repr, DecidableEq

/-- Loop body of `fn get_mount_points` over the available volume letters.
The source declares `let mut h_logical = INVALID_HANDLE_VALUE` outside the
loop, but the `let h_logical = CreateFileA(..)` binding inside the loop
shadows it, so the `CloseHandle(h_logical)` at the top of the loop and
after the loop only ever see the outer, always-invalid variable: no opened
logical-volume handle is ever closed.  The embedding mirrors that: handles
allocated here are never removed from `live`. -/
def get_mount_points_go (device_number : Int) (env : MountEnv) :
    List Char → HState → List MountPoint → MPResult
  | [], hs, acc => { err := none, points := acc, hs := hs }
  | c :: rest, hs, acc =>
    let v := env.volumes c
    let drive := MountPoint.new (String.singleton c ++ ":\\")
    if v.driveType ≠ DRIVE_FIXED ∧ v.driveType ≠ DRIVE_REMOVABLE then
      get_mount_points_go device_number env rest hs acc
    else if !v.openOk then
      get_mount_points_go device_number env rest hs acc
    else
      let opened := hs.openNew
      let hs := opened.2
      let logical_volume_device_number := get_device_number v.devNum
      if logical_volume_device_number < 0 then
        get_mount_points_go device_number env rest hs acc
      else if logical_volume_device_number = device_number then
        match v.volumePathName with
        | .error e => { err := some e, points := acc, hs := hs }
        | .ok root_path =>
          match v.diskFreeSpace root_path with
          | .error e => { err := some e, points := acc, hs := hs }
          | .ok fs =>
            let bytes_per_cluster :=
              fs.sectorsPerCluster * fs.bytesPerSector % 2 ^ 64
            let drive :=
              { drive with
                totalBytes :=
                  some (bytes_per_cluster * fs.totalNumberOfClusters % 2 ^ 64)
                availableBytes :=
                  some (bytes_per_cluster * fs.numberOfFreeClusters % 2 ^ 64) }
            get_mount_points_go device_number env rest hs (acc ++ [drive])
      else
        get_mount_points_go device_number env rest hs acc

/-- `fn get_mount_points(device_number, mount_points)`. -/
def get_mount_points (device_number : Int) (env : MountEnv) (hs : HState) :
    MPResult :=
  get_mount_points_go device_number env
    (get_available_volumes env.logicalDriveMask) hs []

/-! ### Property battery (windows.rs) -/

/-- `IOCTL_DISK_GET_DRIVE_GEOMETRY_EX` output: `DiskSize.QuadPart` (i64)
and `Geometry.BytesPerSector` (DWORD). -/
structure GeometryResult where
  diskSizeQuadPart : Int
  bytesPerSector : Nat
deriving Repr, DecidableEq

/-- `IOCTL_DISK_GET_DRIVE_LAYOUT_EX` output: `PartitionStyle` and
`PartitionCount`. -/
structure LayoutResult where
  partitionStyle : Nat
  partitionCount : Nat
deriving Repr, DecidableEq

/-- `STORAGE_ADAPTER_DESCRIPTOR` fields read by windows.rs: `BusType`
(a byte, matched `as u32`) and the bus version words. -/
structure AdapterResult where
  busType : Nat
  busMajorVersion : Nat
  busMinorVersion : Nat
deriving Repr, DecidableEq

/-- `STORAGE_ACCESS_ALIGNMENT_DESCRIPTOR` fields read by windows.rs. -/
structure AlignmentResult where
  bytesPerLogicalSector : Nat
  bytesPerPhysicalSector : Nat
deriving Repr, DecidableEq

/-- The `GetLastError()` value observed right after a failed query. -/
def errCode {α : Type} : Except Nat α → Nat
  | .error c => c
  | .ok _ => 0

/-- `fn get_bus_type(adapter)`: the numeric `BusType` code to string map;
code 16 (`BusTypeSpaces`) is commented out in the source and so falls to
`"INVALID"` with every other unlisted code. -/
def get_bus_type (busType : Nat) : String :=
  if busType = 0 then "UNKNOWN"
  else if busType = 1 then "SCSI"
  else if busType = 2 then "ATAPI"
  else if busType = 3 then "ATA"
  else if busType = 4 then "1394"
  else if busType = 5 then "SSA"
  else if busType = 6 then "FIBRE"
  else if busType = 7 then "USB"
  else if busType = 8 then "RAID"
  else if busType = 9 then "iSCSI"
  else if busType = 10 then "SAS"
  else if busType = 11 then "SATA"
  else if busType = 12 then "SDCARD"
  else if busType = 13 then "MMC"
  else if busType = 14 then "VIRTUAL"
  else if busType = 15 then "FILEBACKEDVIRTUAL"
  else if busType = 17 then "NVME"
  else if busType = 19 then "UFS"
  else if busType = 18 then "SCM"
  else "INVALID"

/-- `fn get_device_size(device_descriptor, h_physical)`: on success store
`DiskSize.QuadPart as u64` into `size` and `BytesPerSector` into
`blockSize`; return whether the geometry query succeeded. -/
def get_device_size (d : DeviceDescriptor)
    (geometry : Except Nat GeometryResult) : DeviceDescriptor × Bool :=
  match geometry with
  | .ok dm =>
    ({ d with size := i64AsU64 dm.diskSizeQuadPart
              blockSize := dm.bytesPerSector }, true)
  | .error _ => (d, false)

/-- `fn get_partition_table_type(device, h_physical)`: on query failure set
`error` and return false; on success classify `mbr` when the style is MBR
and `PartitionCount % 4 == 0`, `gpt` when the style is GPT, else leave
`partitionTableType` untouched. -/
def get_partition_table_type (d : DeviceDescriptor)
    (layout : Except Nat LayoutResult) : DeviceDescriptor × Bool :=
  match layout with
  | .error code =>
    ({ d with error := some ("NOT has_disk_layout. Error " ++ toString code) },
      false)
  | .ok disk_layout =>
    if disk_layout.partitionStyle = PARTITION_STYLE_MBR ∧
        disk_layout.partitionCount % 4 = 0 then
      ({ d with partitionTableType := some "mbr" }, true)
    else if disk_layout.partitionStyle = PARTITION_STYLE_GPT then
      ({ d with partitionTableType := some "gpt" }, true)
    else
      (d, true)

/-- `fn get_adapter_info(device, h_physical)`: on success store the mapped
bus type and `"<major>.<minor>"` bus version. -/
def get_adapter_info (d : DeviceDescriptor)
    (adapter : Except Nat AdapterResult) : DeviceDescriptor × Bool :=
  match adapter with
  | .ok val =>
    ({ d with
        busType := some (get_bus_type val.busType)
        busVersion :=
          some (toString val.busMajorVersion ++ "." ++
            toString val.busMinorVersion) }, true)
  | .error _ => (d, false)

/-- `fn get_device_block_size(device, h_physical)`: on success overwrite
`blockSize` with `BytesPerPhysicalSector` and `logicalBlockSize` with
`BytesPerLogicalSector`. -/
def get_device_block_size (d : DeviceDescriptor)
    (alignment : Except Nat AlignmentResult) : DeviceDescriptor × Bool :=
  match alignment with
  | .ok val =>
    ({ d with blockSize := val.bytesPerPhysicalSector
              logicalBlockSize := val.bytesPerLogicalSector }, true)
  | .error _ => (d, false)

/-! ### `get_detail_data` -/

/-- Outcome of the `SetupDiEnumDeviceInterfaces` call at index `i`. -/
inductive EnumOutcome where
  | ok
  | noMoreItems
  | otherError (code : Nat)
deriving Repr, DecidableEq

/-- Outcome of the first (sizing) `SetupDiGetDeviceInterfaceDetailW` call:
a success returns nonzero (so `size` stays 0), `ERROR_INSUFFICIENT_BUFFER`
yields the required size, any other failure panics. -/
inductive SizingOutcome where
  | firstCallSucceeded
  | insufficientBuffer (requiredSize : Nat)
  | otherError
deriving Repr, DecidableEq

/-- All native outcomes consumed while `get_detail_data` processes one
enumeration index: the interface enumeration, the two-call detail pattern,
the volume-interface `CreateFileW`, the device-number queries, the
mount-point correlation environment, the physical `CreateFileA`, the four
property-battery queries (error payload = the `GetLastError()` code), and
the `IOCTL_DISK_IS_WRITABLE` probe. -/
structure IfaceEnv where
  enumOutcome : EnumOutcome
  sizing : SizingOutcome
  fillOk : Bool
  volumeOpenOk : Bool
  devNum : DevNumEnv
  mountEnv : MountEnv
  physicalOpenOk : Bool
  geometry : Except Nat GeometryResult
  layout : Except Nat LayoutResult
  adapter : Except Nat AdapterResult
  alignment : Except Nat AlignmentResult
  isWritableOk : Bool

/-- One iteration of the `get_detail_data` loop, after the loop-top
`CloseHandle(h_device)`: `panicked` models the source's `panic!` calls and
the `Option::unwrap` on `device_path`; `brk` models `break` followed by the
after-loop `CloseHandle(h_device)` guard (already applied to the returned
state); `next` continues with `index + 1` and the volume-interface handle
still open. -/
inductive IfaceStep where
  | panicked (msg : String)
  | brk (d : DeviceDescriptor) (hs : HState)
  | next (d : DeviceDescriptor) (hDevice : Option Nat) (hs : HState)
deriving Repr, DecidableEq

/-- The property-battery section of the `get_detail_data` loop body (the
source's lines from `CreateFileA` success through `CloseHandle(h_physical)`):
open the physical handle, run geometry, partition layout, adapter and
alignment queries — each soft-failing by setting `error` and breaking —
then the writability probe, then close the physical handle. -/
def run_battery (d : DeviceDescriptor) (e : IfaceEnv) (hs : HState)
    (h_device : Nat) : IfaceStep :=
  let openedP := hs.openNew
  let h_physical := openedP.1
  let hs := openedP.2
  let r1 := get_device_size d e.geometry
  let d := r1.1
  if !r1.2 then
    let msg := "Couldn't get disk geometry: Error " ++
      toString (errCode e.geometry)
    .brk { d with error := some msg } (hs.close h_device)
  else
    let r2 := get_partition_table_type d e.layout
    let d := r2.1
    if !r2.2 then
      let msg := "Couldn't get partition type: Error " ++
        toString (errCode e.layout)
      .brk { d with error := some msg } (hs.close h_device)
    else
      let r3 := get_adapter_info d e.adapter
      let d := r3.1
      if !r3.2 then
        let msg := "Couldn't get adapter info: Error " ++
          toString (errCode e.adapter)
        .brk { d with error := some msg } (hs.close h_device)
      else
        let r4 := get_device_block_size d e.alignment
        let d := r4.1
        if !r4.2 then
          let msg := "Couldn't get device block size: Error " ++
            toString (errCode e.alignment)
          .brk { d with error := some msg } (hs.close h_device)
        else
          let d := { d with isReadOnly := !e.isWritableOk }
          let hs := hs.close h_physical
          .next d (some h_device) hs

def process_iface (d : DeviceDescriptor) (e : IfaceEnv) (hs : HState) :
    IfaceStep :=
  match e.enumOutcome with
  | .noMoreItems => .brk d hs
  | .otherError code =>
    .panicked ("SetupDiEnumDeviceInterfaces: Error " ++ toString code)
  | .ok =>
    match e.sizing with
    | .otherError => .panicked "Error SetupDiGetDeviceInterfaceDetailW"
    | _ =>
      if !e.fillOk then
        .brk d hs
      else if !e.volumeOpenOk then
        .brk d hs
      else
        let opened := hs.openNew
        let h_device := opened.1
        let hs := opened.2
        let device_number := get_device_number e.devNum
        if device_number < 0 then
          .brk { d with error := some "Couldn't get device number" }
            (hs.close h_device)
        else
          let raw := "\\\\.\\PhysicalDrive" ++ toString device_number
          let d := { d with raw := raw, device := raw }
          let mp := get_mount_points device_number e.mountEnv hs
          let d := { d with mountpoints := d.mountpoints ++ mp.points }
          let hs := mp.hs
          match mp.err with
          | some msg =>
            .brk { d with error := some msg } (hs.close h_device)
          | none =>
            if !e.physicalOpenOk then
              match d.devicePath with
              | none =>
                .panicked "called Option::unwrap() on a None value"
              | some p =>
                .brk { d with error := some ("Cannot open: " ++ p) }
                  (hs.close h_device)
            else
              run_battery d e hs h_device

/-- Result of `get_detail_data` for one device: either a normal return with
the final descriptor and handle state, or a panic. -/
inductive DetailResult where
  | normal (d : DeviceDescriptor) (hs : HState)
  | panicked (msg : String)
deriving Repr, DecidableEq

def closeOpt (hDevice : Option Nat) (hs : HState) : HState :=
  match hDevice with
  | some h => hs.close h
  | none => hs

/-- The `loop` of `fn get_detail_data`: at each index, first close the
volume-interface handle from the previous iteration if still open, then
process this index's interface.  An exhausted environment list behaves as
`ERROR_NO_MORE_ITEMS`. -/
def get_detail_data_go (d : DeviceDescriptor) (hDevice : Option Nat)
    (hs : HState) : List IfaceEnv → DetailResult
  | [] => .normal d (closeOpt hDevice hs)
  | e :: rest =>
    let hs := closeOpt hDevice hs
    match process_iface d e hs with
    | .panicked msg => .panicked msg
    | .brk d₂ hs₂ => .normal d₂ hs₂
    | .next d₂ hDev₂ hs₂ => get_detail_data_go d₂ hDev₂ hs₂ rest

/-- `pub(crate) fn get_detail_data(device, h_dev_info, device_info_data)`:
starts with no volume-interface handle open. -/
def get_detail_data (d : DeviceDescriptor) (hs : HState)
    (envs : List IfaceEnv) : DetailResult :=
  get_detail_data_go d none hs envs

/-! ## Derived predicates and concrete environments used by the theorems -/

/-- The live (unclosed) handles a `get_detail_data` run leaves behind. -/
def DetailResult.leaked : DetailResult → List Nat
  | .normal _ hs => hs.live
  | .panicked _ => []

/-- Whether a `get_detail_data` run returned normally (did not panic). -/
def DetailResult.isNormal : DetailResult → Bool
  | .normal _ _ => true
  | .panicked _ => false

/-- `v` is a sector size some successful query of `e` reports for
`blockSize`: the geometry query's `BytesPerSector` or the alignment
query's `BytesPerPhysicalSector`. -/
def blockCand (e : IfaceEnv) (v : Nat) : Prop :=
  (∃ g, e.geometry = Except.ok g ∧ v = g.bytesPerSector) ∨
    (∃ a, e.alignment = Except.ok a ∧ v = a.bytesPerPhysicalSector)

/-- `v` is a sector size some successful query of `e` reports for
`logicalBlockSize`: only the alignment query's `BytesPerLogicalSector`. -/
def logicalCand (e : IfaceEnv) (v : Nat) : Prop :=
  ∃ a, e.alignment = Except.ok a ∧ v = a.bytesPerLogicalSector

/-- Every sector size the environment's queries could report is positive
(what real hardware reports). -/
def sectorsPositive (e : IfaceEnv) : Prop :=
  (∀ g, e.geometry = Except.ok g → 0 < g.bytesPerSector) ∧
    (∀ a, e.alignment = Except.ok a →
      0 < a.bytesPerPhysicalSector ∧ 0 < a.bytesPerLogicalSector)

/-- One step of `get_detail_data` only changes `blockSize` /
`logicalBlockSize` to sector sizes reported by this step's queries, and
never touches `mountpointLabels`. -/
def descFrame (d : DeviceDescriptor) (e : IfaceEnv)
    (d₂ : DeviceDescriptor) : Prop :=
  (d₂.blockSize = d.blockSize ∨ blockCand e d₂.blockSize) ∧
    (d₂.logicalBlockSize = d.logicalBlockSize ∨
      logicalCand e d₂.logicalBlockSize) ∧
    d₂.mountpointLabels = d.mountpointLabels

def stepFrame (d : DeviceDescriptor) (e : IfaceEnv) : IfaceStep → Prop
  | .panicked _ => True
  | .brk d₂ _ => descFrame d e d₂
  | .next d₂ _ _ => descFrame d e d₂

/-- A volume letter with nothing usable behind it: every native call
fails. -/
def absentVolume : VolumeEnv :=
  { driveType := 0, openOk := false
    devNum := { extentsResult := none, deviceNumberResult := none }
    volumePathName := Except.error ""
    diskFreeSpace := fun _ => Except.error "" }

/-- No logical drives assigned at all. -/
def noVolumes : MountEnv :=
  { logicalDriveMask := 0, volumes := fun _ => absentVolume }

/-- A fixed drive whose volume opens fine, resolves device number 0, and
reports 8 sectors per cluster of 512 bytes, 10 free and 100 total
clusters. -/
def fixedVolumeC : VolumeEnv :=
  { driveType := DRIVE_FIXED, openOk := true
    devNum := { extentsResult := none, deviceNumberResult := some 0 }
    volumePathName := Except.ok "C:\\"
    diskFreeSpace := fun _ => Except.ok
      { sectorsPerCluster := 8, bytesPerSector := 512
        numberOfFreeClusters := 10, totalNumberOfClusters := 100 } }

/-- Exactly one assigned drive letter (bit 2 = `C`), backed by
`fixedVolumeC`. -/
def oneVolumeEnv : MountEnv :=
  { logicalDriveMask := 4, volumes := fun _ => fixedVolumeC }

/-- A device interface whose every native call succeeds: device number 3,
no mounted volumes, a 1000000-byte disk with 512-byte sectors, an MBR
layout with 4 partitions, a USB 2.0 adapter, 4096/512-byte
physical/logical sectors, and a writable disk. -/
def allOkIface : IfaceEnv :=
  { enumOutcome := .ok, sizing := .insufficientBuffer 10, fillOk := true
    volumeOpenOk := true
    devNum := { extentsResult := none, deviceNumberResult := some 3 }
    mountEnv := noVolumes, physicalOpenOk := true
    geometry := Except.ok { diskSizeQuadPart := 1000000, bytesPerSector := 512 }
    layout := Except.ok { partitionStyle := 0, partitionCount := 4 }
    adapter := Except.ok { busType := 7, busMajorVersion := 2, busMinorVersion := 0 }
    alignment := Except.ok { bytesPerLogicalSector := 512, bytesPerPhysicalSector := 4096 }
    isWritableOk := true }

/-- `allOkIface` with the geometry query failing with error code 5. -/
def geomFailIface : IfaceEnv := { allOkIface with geometry := Except.error 5 }

/-- The descriptor `get_detail_data` builds from the default under
`allOkIface`. -/
def allOkResultD : DeviceDescriptor :=
  { DeviceDescriptor.default with
    raw := "\\\\.\\PhysicalDrive3", device := "\\\\.\\PhysicalDrive3"
    size := 1000000, blockSize := 4096, logicalBlockSize := 512
    busType := some "USB", busVersion := some "2.0"
    partitionTableType := some "mbr" }

/-! ## Theorems -/

/-- Helper: `u8 as char` round-trips through `toNat` below the surrogate
range. -/
theorem char_toNat_ofNat (n : Nat) (h : n < 55296) :
    (Char.ofNat n).toNat = n := by
  have hv : n.isValidChar := Or.inl h
  rw [Char.ofNat, dif_pos hv]
  rfl

/-- C2 counterexample: with the external tool started and exiting
successfully but emitting unparseable output, `diskutil` panics (the
source's `.unwrap()`), so the run is not a propagated error — refuting
"returns a propagated error exactly when … its output cannot be
parsed". -/
theorem diskutil_parse_failure_panics :
    diskutil ⟨Except.ok ⟨true, Except.error "invalid plist"⟩⟩ =
      DiskutilResult.panicked
        ("called Result::unwrap() on an Err value: invalid plist") ∧
    (diskutil ⟨Except.ok ⟨true, Except.error "invalid plist"⟩⟩).isError
      = false :=
  ⟨rfl, rfl⟩

/-- C2 (amended): `diskutil` returns a propagated error exactly when the
external tool cannot be started or exits with nonzero status; well-formed
output yields the fully mapped descriptor list; unparseable output of a
successful run panics instead of propagating. -/
theorem diskutil_error_characterization (env : DiskutilEnv) :
    ((∃ m, diskutil env = DiskutilResult.err m) ↔
      ((∃ m, env.output = Except.error m) ∨
        (∃ o, env.output = Except.ok o ∧ o.statusSuccess = false))) ∧
    (∀ o parsed, env.output = Except.ok o → o.statusSuccess = true →
      o.stdoutParse = Except.ok parsed →
      diskutil env = DiskutilResult.ok
        (parsed.all_disks_and_partitions.map DeviceDescriptor.fromDisk)) ∧
    (∀ o m, env.output = Except.ok o → o.statusSuccess = true →
      o.stdoutParse = Except.error m →
      diskutil env = DiskutilResult.panicked
        ("called Result::unwrap() on an Err value: " ++ m)) := by
  obtain ⟨o⟩ := env
  cases o with
  | error m => simp [diskutil]
  | ok co =>
    obtain ⟨s, p⟩ := co
    cases s <;> cases p <;> simp [diskutil] <;>
      constructor <;> rintro o x rfl h₁ h₂ <;> simp_all

/-- Witness for `diskutil_error_characterization` at a concrete
environment: a successful run whose output parses to no disks. -/
theorem diskutil_error_characterization_witness :
    diskutil ⟨Except.ok ⟨true, Except.ok ⟨[]⟩⟩⟩ =
      DiskutilResult.ok (([] : List Disk).map DeviceDescriptor.fromDisk) :=
  (diskutil_error_characterization ⟨Except.ok ⟨true, Except.ok ⟨[]⟩⟩⟩).2.1
    ⟨true, Except.ok ⟨[]⟩⟩ ⟨[]⟩ rfl rfl rfl

/-- C3 counterexample: when the extents query succeeds with two extents,
`get_device_number` returns `-1` at once even though the
storage-device-number query would succeed with value 5 — refuting "for
every input where the storage-device-number query would succeed, its
value is the one returned". -/
theorem get_device_number_two_extents_ignores_device_number :
    get_device_number ⟨some ⟨2, 7⟩, some 5⟩ = -1 ∧
    get_device_number ⟨some ⟨2, 7⟩, some 5⟩ ≠ dwordAsI32 5 := by
  constructor <;> decide

/-- C3 (amended): full characterization of `get_device_number` — a
successful extents query with two or more extents returns `-1`
immediately, without consulting the storage-device-number query;
otherwise a successful storage-device-number query's value (as i32) is
preferred, the single extent's disk number is the fallback, and `-1` is
returned when nothing succeeded. -/
theorem get_device_number_characterization (env : DevNumEnv) :
    (∀ de, env.extentsResult = some de → 2 ≤ de.numberOfDiskExtents →
      get_device_number env = -1) ∧
    (∀ de dn, env.extentsResult = some de → de.numberOfDiskExtents < 2 →
      env.deviceNumberResult = some dn →
      get_device_number env = dwordAsI32 dn) ∧
    (∀ dn, env.extentsResult = none → env.deviceNumberResult = some dn →
      get_device_number env = dwordAsI32 dn) ∧
    (∀ de, env.extentsResult = some de → de.numberOfDiskExtents < 2 →
      env.deviceNumberResult = none →
      get_device_number env = dwordAsI32 de.extent0DiskNumber) ∧
    (env.extentsResult = none → env.deviceNumberResult = none →
      get_device_number env = -1) := by
  obtain ⟨er, dr⟩ := env
  cases er <;> cases dr <;>
    refine ⟨?_, ?_, ?_, ?_, ?_⟩ <;>
      intros <;> simp_all [get_device_number]

/-- Witness for `get_device_number_characterization`: one extent reported
and a successful storage-device-number query with value 5. -/
theorem get_device_number_characterization_witness :
    get_device_number ⟨some ⟨1, 7⟩, some 5⟩ = dwordAsI32 5 :=
  (get_device_number_characterization ⟨some ⟨1, 7⟩, some 5⟩).2.1
    ⟨1, 7⟩ 5 rfl (by decide) rfl

/-- C4: the code leaks handles.  First conjunct: `get_mount_points` on a
single matching fixed volume returns normally (`err = none`, one mount
point appended) yet leaves the logical-volume handle (handle 0) open —
the `let h_logical = CreateFileA(..)` inside the loop shadows the outer
`h_logical`, so both `CloseHandle` sites only ever see the invalid outer
variable.  Second conjunct: when the geometry query fails,
`get_detail_data` breaks out with the physical-device handle (handle 1)
still open — only the volume-interface handle (handle 0) is closed by the
after-loop guard. -/
theorem handle_leaked_on_mount_and_battery_failure :
    ((get_mount_points 0 oneVolumeEnv HState.init).hs.live = [0] ∧
      (get_mount_points 0 oneVolumeEnv HState.init).err = none ∧
      (get_mount_points 0 oneVolumeEnv HState.init).points.length = 1) ∧
    (get_detail_data DeviceDescriptor.default HState.init
        [geomFailIface]).leaked = [1] := by
  refine ⟨⟨?_, ?_, ?_⟩, ?_⟩ <;>
    simp [get_mount_points, get_available_volumes, get_available_volumes_go,
      get_mount_points_go, oneVolumeEnv, fixedVolumeC, get_device_number,
      dwordAsI32, HState.openNew, HState.init, HState.close, DRIVE_FIXED,
      DRIVE_REMOVABLE, MountPoint.new, get_detail_data, get_detail_data_go,
      process_iface, run_battery, closeOpt, geomFailIface, allOkIface,
      noVolumes, absentVolume, DetailResult.leaked, get_device_size, errCode,
      get_partition_table_type, get_adapter_info, get_device_block_size]

/-- C5 counterexample: the structured-listing probe maps a partition to a
`MountPoint` with `totalBytes` present and `availableBytes` absent,
refuting "totalBytes and availableBytes are both present or both
absent". -/
theorem macos_mount_point_total_without_available :
    (MountPoint.fromPartition ⟨none, "Apple_HFS", 500⟩).totalBytes = some 500 ∧
    (MountPoint.fromPartition ⟨none, "Apple_HFS", 500⟩).availableBytes = none :=
  ⟨rfl, rfl⟩

/-- Helper: every mount point `get_mount_points_go` adds beyond the
accumulator has the drive-letter-root path of some letter of the worklist,
no label, and both capacity fields populated. -/
theorem get_mount_points_go_points_mem (device_number : Int)
    (env : MountEnv) :
    ∀ (cs : List Char) (hs : HState) (acc : List MountPoint)
      (mp : MountPoint),
      mp ∈ (get_mount_points_go device_number env cs hs acc).points →
      mp ∈ acc ∨ ∃ c ∈ cs, mp.path = String.singleton c ++ ":\\" ∧
        mp.label = none ∧ mp.totalBytes.isSome ∧ mp.availableBytes.isSome := by
  intro cs
  induction cs with
  | nil =>
    intro hs acc mp h
    exact Or.inl h
  | cons c rest ih =>
    intro hs acc mp h
    simp only [get_mount_points_go] at h
    repeat' split at h
    all_goals
      first
      | exact Or.inl h
      | · rcases ih _ _ _ h with h' | ⟨c', hc', hp⟩
          · first
            | exact Or.inl h'
            | · rcases List.mem_append.mp h' with h'' | h''
                · exact Or.inl h''
                · rcases List.mem_singleton.mp h'' with rfl
                  exact Or.inr ⟨c, List.mem_cons_self c rest, rfl, rfl, rfl, rfl⟩
          · exact Or.inr ⟨c', List.mem_cons_of_mem _ hc', hp⟩

/-- C5 (amended): the native-query probe populates `totalBytes` and
`availableBytes` together on every mount point it appends, while the
structured-listing probe always reports `totalBytes` (the partition's
size) with `availableBytes` left unset. -/
theorem mount_capacity_pairing :
    (∀ (n : Int) (env : MountEnv) (hs : HState) (mp : MountPoint),
      mp ∈ (get_mount_points n env hs).points →
      mp.totalBytes.isSome ∧ mp.availableBytes.isSome) ∧
    (∀ p : Partition,
      (MountPoint.fromPartition p).totalBytes = some p.size ∧
      (MountPoint.fromPartition p).availableBytes = none) := by
  constructor
  · intro n env hs mp h
    rcases get_mount_points_go_points_mem n env _ _ _ mp h with
      h' | ⟨c, _, _, _, ht, ha⟩
    · simp at h'
    · exact ⟨ht, ha⟩
  · intro p
    exact ⟨rfl, rfl⟩

/-- Witness for `mount_capacity_pairing`: the mount point produced for the
one fixed volume of `oneVolumeEnv` has both capacity figures present. -/
theorem mount_capacity_pairing_witness :
    ({ path := "C:\\", label := none, totalBytes := some 409600, availableBytes := some 40960 } : MountPoint) ∈
      (get_mount_points 0 oneVolumeEnv HState.init).points ∧
    (({ path := "C:\\", label := none, totalBytes := some 409600, availableBytes := some 40960 } : MountPoint).totalBytes.isSome ∧
      ({ path := "C:\\", label := none, totalBytes := some 409600, availableBytes := some 40960 } : MountPoint).availableBytes.isSome) :=
  have hmem : ({ path := "C:\\", label := none, totalBytes := some 409600, availableBytes := some 40960 } : MountPoint) ∈
      (get_mount_points 0 oneVolumeEnv HState.init).points := by
    simp [get_mount_points, get_available_volumes, get_available_volumes_go,
      get_mount_points_go, oneVolumeEnv, fixedVolumeC, get_device_number,
      dwordAsI32, HState.openNew, HState.init, DRIVE_FIXED, DRIVE_REMOVABLE,
      MountPoint.new, String.singleton]
    decide
  ⟨hmem, mount_capacity_pairing.1 0 oneVolumeEnv HState.init _ hmem⟩

/-- C7: partition-table classification on a successfully read layout —
style MBR with a partition count that is an exact multiple of 4 classifies
`mbr` (covering counts 4, 8, 12 and also 0), style GPT classifies `gpt`
for any count, and anything else (including MBR with count 5) leaves
`partitionTableType` as it was (unset on a fresh descriptor). -/
theorem partition_table_classification (d : DeviceDescriptor)
    (style count : Nat) :
    (get_partition_table_type d (Except.ok ⟨style, count⟩)).2 = true ∧
    (style = PARTITION_STYLE_MBR → count % 4 = 0 →
      (get_partition_table_type d
        (Except.ok ⟨style, count⟩)).1.partitionTableType = some "mbr") ∧
    (style = PARTITION_STYLE_GPT →
      (get_partition_table_type d
        (Except.ok ⟨style, count⟩)).1.partitionTableType = some "gpt") ∧
    (style = PARTITION_STYLE_MBR → count % 4 ≠ 0 →
      (get_partition_table_type d
        (Except.ok ⟨style, count⟩)).1.partitionTableType =
          d.partitionTableType) ∧
    (style ≠ PARTITION_STYLE_MBR → style ≠ PARTITION_STYLE_GPT →
      (get_partition_table_type d
        (Except.ok ⟨style, count⟩)).1.partitionTableType =
          d.partitionTableType) := by
  constructor
  · simp only [get_partition_table_type]
    split
    · rfl
    · split <;> rfl
  · refine ⟨?_, ?_, ?_, ?_⟩ <;> intros <;>
      simp_all [get_partition_table_type, PARTITION_STYLE_MBR,
        PARTITION_STYLE_GPT]

/-- Witness for `partition_table_classification`: a GPT layout with 5
partitions classifies `gpt`, an MBR layout with 8 classifies `mbr`, and an
MBR layout with 5 leaves the default descriptor unclassified. -/
theorem partition_table_classification_witness :
    (get_partition_table_type DeviceDescriptor.default
      (Except.ok ⟨1, 5⟩)).1.partitionTableType = some "gpt" ∧
    (get_partition_table_type DeviceDescriptor.default
      (Except.ok ⟨0, 8⟩)).1.partitionTableType = some "mbr" ∧
    (get_partition_table_type DeviceDescriptor.default
      (Except.ok ⟨0, 5⟩)).1.partitionTableType = none :=
  ⟨(partition_table_classification DeviceDescriptor.default 1 5).2.2.1 rfl,
    (partition_table_classification DeviceDescriptor.default 0 8).2.1 rfl rfl,
    (partition_table_classification DeviceDescriptor.default 0 5).2.2.2.1 rfl
      (by decide)⟩

/-- C9: the structured-listing mapping — `isSystem` mirrors `os_internal`,
`isRemovable` is its negation, the enumerator is the tool name, `device`
and `raw` are built from the identifier, and an unmounted partition maps
to a `MountPoint` with empty path whose label is the content string. -/
theorem structured_listing_mapping (disk : Disk) (p : Partition) :
    (DeviceDescriptor.fromDisk disk).isSystem = disk.os_internal ∧
    (DeviceDescriptor.fromDisk disk).isRemovable = !disk.os_internal ∧
    (DeviceDescriptor.fromDisk disk).enumerator = "diskutil" ∧
    (DeviceDescriptor.fromDisk disk).device =
      "/dev/" ++ disk.device_identifier ∧
    (DeviceDescriptor.fromDisk disk).raw =
      "/dev/r" ++ disk.device_identifier ∧
    (p.mount_point = none →
      (MountPoint.fromPartition p).path = "" ∧
      (MountPoint.fromPartition p).label = some p.content) := by
  refine ⟨rfl, rfl, rfl, rfl, rfl, ?_⟩
  intro h
  simp [MountPoint.fromPartition, h]

/-- Witness for `structured_listing_mapping`: an OS-internal disk with one
unmounted partition. -/
theorem structured_listing_mapping_witness :
    (DeviceDescriptor.fromDisk
      ⟨"disk0", true, 1000, "GUID_partition_scheme",
        [⟨none, "Apple_HFS", 500⟩]⟩).isSystem = true ∧
    (MountPoint.fromPartition ⟨none, "Apple_HFS", 500⟩).path = "" ∧
    (MountPoint.fromPartition ⟨none, "Apple_HFS", 500⟩).label =
      some "Apple_HFS" :=
  have h := structured_listing_mapping
    ⟨"disk0", true, 1000, "GUID_partition_scheme", [⟨none, "Apple_HFS", 500⟩]⟩
    ⟨none, "Apple_HFS", 500⟩
  ⟨h.1, (h.2.2.2.2.2 rfl).1, (h.2.2.2.2.2 rfl).2⟩

/-- C8 counterexample: a disk with one partition yields a descriptor with
one labelled mount point but an empty `mountpointLabels`, refuting "entry
j of mountpointLabels is the label of mountpoint j". -/
theorem mountpoint_labels_not_parallel :
    (DeviceDescriptor.fromDisk
      ⟨"disk0", false, 1000, "GUID_partition_scheme",
        [⟨none, "Apple_HFS", 500⟩]⟩).mountpoints.map MountPoint.label =
      [some "Apple_HFS"] ∧
    (DeviceDescriptor.fromDisk
      ⟨"disk0", false, 1000, "GUID_partition_scheme",
        [⟨none, "Apple_HFS", 500⟩]⟩).mountpointLabels = [] ∧
    (DeviceDescriptor.fromDisk
      ⟨"disk0", false, 1000, "GUID_partition_scheme",
        [⟨none, "Apple_HFS", 500⟩]⟩).mountpointLabels.length ≠
      (DeviceDescriptor.fromDisk
        ⟨"disk0", false, 1000, "GUID_partition_scheme",
          [⟨none, "Apple_HFS", 500⟩]⟩).mountpoints.length := by
  refine ⟨rfl, rfl, ?_⟩
  decide

/-- Helper: `descFrame` is reflexive. -/
theorem descFrame_refl (d : DeviceDescriptor) (e : IfaceEnv) :
    descFrame d e d :=
  ⟨Or.inl rfl, Or.inl rfl, rfl⟩

/-- Helper: `stepFrame` transports along agreement of the three tracked
fields. -/
theorem stepFrame_of_agree (d d' : DeviceDescriptor) (e : IfaceEnv)
    (s : IfaceStep) (hb : d'.blockSize = d.blockSize)
    (hl : d'.logicalBlockSize = d.logicalBlockSize)
    (hm : d'.mountpointLabels = d.mountpointLabels)
    (h : stepFrame d' e s) : stepFrame d e s := by
  cases s with
  | panicked m => trivial
  | brk d₂ hs₂ =>
    obtain ⟨h1, h2, h3⟩ := h
    exact ⟨h1.imp (fun hh => hh.trans hb) id,
      h2.imp (fun hh => hh.trans hl) id, h3.trans hm⟩
  | next d₂ hd hs₂ =>
    obtain ⟨h1, h2, h3⟩ := h
    exact ⟨h1.imp (fun hh => hh.trans hb) id,
      h2.imp (fun hh => hh.trans hl) id, h3.trans hm⟩

/-- Helper: on a failed layout query, `get_partition_table_type` records
the error and reports failure. -/
theorem get_partition_table_type_error_eq (d : DeviceDescriptor) (c : Nat) :
    get_partition_table_type d (Except.error c) =
      ({ d with error := some ("NOT has_disk_layout. Error " ++ toString c) }, false) :=
  rfl

/-- Helper: on a successful layout query, `get_partition_table_type`
reports success whatever the classification. -/
theorem get_partition_table_type_ok_snd (d : DeviceDescriptor)
    (l : LayoutResult) :
    (get_partition_table_type d (Except.ok l)).2 = true := by
  simp only [get_partition_table_type]
  split
  · rfl
  · split <;> rfl

/-- Helper: `get_partition_table_type` never touches `blockSize`,
`logicalBlockSize` or `mountpointLabels`. -/
theorem get_partition_table_type_frame (d : DeviceDescriptor)
    (lay : Except Nat LayoutResult) :
    (get_partition_table_type d lay).1.blockSize = d.blockSize ∧
    (get_partition_table_type d lay).1.logicalBlockSize =
      d.logicalBlockSize ∧
    (get_partition_table_type d lay).1.mountpointLabels =
      d.mountpointLabels := by
  cases lay with
  | error c => exact ⟨rfl, rfl, rfl⟩
  | ok l =>
    simp only [get_partition_table_type]
    split
    · exact ⟨rfl, rfl, rfl⟩
    · split
      · exact ⟨rfl, rfl, rfl⟩
      · exact ⟨rfl, rfl, rfl⟩

/-- Helper: the property battery only moves `blockSize` /
`logicalBlockSize` to sector sizes its successful queries report, and
never touches `mountpointLabels`. -/
theorem run_battery_stepFrame (d : DeviceDescriptor) (e : IfaceEnv)
    (hs : HState) (h_device : Nat) :
    stepFrame d e (run_battery d e hs h_device) := by
  obtain ⟨eo, sz, fo, vo, dn, me, po, geo, lay, adp, aln, w⟩ := e
  cases geo <;> cases lay <;> cases adp <;> cases aln <;>
    simp [run_battery, get_device_size, get_adapter_info,
      get_device_block_size, stepFrame, descFrame, blockCand, logicalCand,
      errCode, get_partition_table_type_error_eq,
      get_partition_table_type_ok_snd, get_partition_table_type_frame]

/-- Helper: one iteration of the `get_detail_data` loop only moves
`blockSize` / `logicalBlockSize` to sector sizes reported by this
iteration's successful queries, and never touches `mountpointLabels`. -/
theorem process_iface_stepFrame (d : DeviceDescriptor) (e : IfaceEnv)
    (hs : HState) : stepFrame d e (process_iface d e hs) := by
  simp only [process_iface]
  repeat' split
  all_goals
    first
    | trivial
    | exact descFrame_refl ..
    | exact ⟨Or.inl rfl, Or.inl rfl, rfl⟩
    | exact stepFrame_of_agree _ _ _ _ rfl rfl rfl
        (run_battery_stepFrame _ _ _ _)

/-- Helper: across the whole `get_detail_data` loop, `blockSize` /
`logicalBlockSize` either keep the input descriptor's value or hold a
sector size reported by a successful query of some processed environment,
and `mountpointLabels` is never touched. -/
theorem get_detail_data_go_frame :
    ∀ (envs : List IfaceEnv) (d : DeviceDescriptor) (hDev : Option Nat)
      (hs : HState) (d₂ : DeviceDescriptor) (hs₂ : HState),
      get_detail_data_go d hDev hs envs = DetailResult.normal d₂ hs₂ →
      (d₂.blockSize = d.blockSize ∨ ∃ e ∈ envs, blockCand e d₂.blockSize) ∧
      (d₂.logicalBlockSize = d.logicalBlockSize ∨
        ∃ e ∈ envs, logicalCand e d₂.logicalBlockSize) ∧
      d₂.mountpointLabels = d.mountpointLabels := by
  intro envs
  induction envs with
  | nil =>
    intro d hDev hs d₂ hs₂ h
    simp only [get_detail_data_go] at h
    injection h with h₁ h₂
    subst h₁
    exact ⟨Or.inl rfl, Or.inl rfl, rfl⟩
  | cons e rest ih =>
    intro d hDev hs d₂ hs₂ h
    simp only [get_detail_data_go] at h
    have hf := process_iface_stepFrame d e (closeOpt hDev hs)
    cases hp : process_iface d e (closeOpt hDev hs) with
    | panicked m =>
      rw [hp] at h
      cases h
    | brk d₃ hs₃ =>
      rw [hp] at h hf
      injection h with h₁ h₂
      subst h₁
      obtain ⟨h1, h2, h3⟩ := hf
      exact ⟨h1.imp id (fun hc => ⟨e, List.mem_cons_self e rest, hc⟩),
        h2.imp id (fun hc => ⟨e, List.mem_cons_self e rest, hc⟩), h3⟩
    | next d₃ hd₃ hs₃ =>
      rw [hp] at h hf
      obtain ⟨h1, h2, h3⟩ := hf
      obtain ⟨g1, g2, g3⟩ := ih d₃ hd₃ hs₃ d₂ hs₂ h
      refine ⟨?_, ?_, g3.trans h3⟩
      · rcases g1 with g1 | ⟨e', he', hc⟩
        · rw [g1]
          exact h1.imp id (fun hc => ⟨e, List.mem_cons_self e rest, hc⟩)
        · exact Or.inr ⟨e', List.mem_cons_of_mem _ he', hc⟩
      · rcases g2 with g2 | ⟨e', he', hc⟩
        · rw [g2]
          exact h2.imp id (fun hc => ⟨e, List.mem_cons_self e rest, hc⟩)
        · exact Or.inr ⟨e', List.mem_cons_of_mem _ he', hc⟩

/-- C6: block sizes.  The structured-listing probe leaves `blockSize` and
`logicalBlockSize` at the 512 default (hence nonzero).  For the
native-query probe, starting from the default descriptor, the final
`blockSize` / `logicalBlockSize` is 512 unless a geometry or alignment
query succeeded and overrode it with that query's reported sector size;
consequently, whenever every reported sector size is positive (as real
hardware reports), both fields are nonzero. -/
theorem block_sizes_default_or_queried :
    (∀ disk : Disk, (DeviceDescriptor.fromDisk disk).blockSize = 512 ∧
      (DeviceDescriptor.fromDisk disk).logicalBlockSize = 512) ∧
    (∀ (envs : List IfaceEnv) (hs : HState) (d₂ : DeviceDescriptor)
      (hs₂ : HState),
      get_detail_data DeviceDescriptor.default hs envs =
        DetailResult.normal d₂ hs₂ →
      ((d₂.blockSize = 512 ∨ ∃ e ∈ envs, blockCand e d₂.blockSize) ∧
        (d₂.logicalBlockSize = 512 ∨
          ∃ e ∈ envs, logicalCand e d₂.logicalBlockSize)) ∧
      ((∀ e ∈ envs, sectorsPositive e) →
        d₂.blockSize ≠ 0 ∧ d₂.logicalBlockSize ≠ 0)) := by
  constructor
  · intro disk
    exact ⟨rfl, rfl⟩
  · intro envs hs d₂ hs₂ h
    obtain ⟨h1, h2, _⟩ := get_detail_data_go_frame envs _ none hs d₂ hs₂ h
    refine ⟨⟨h1, h2⟩, ?_⟩
    intro hpos
    constructor
    · rcases h1 with h1 | ⟨e, he, hc⟩
      · rw [h1]
        decide
      · rcases hc with ⟨g, hg, heq⟩ | ⟨a, ha, heq⟩
        · rw [heq]
          have := (hpos e he).1 g hg
          omega
        · rw [heq]
          have := ((hpos e he).2 a ha).1
          omega
    · rcases h2 with h2 | ⟨e, he, ⟨a, ha, heq⟩⟩
      · rw [h2]
        decide
      · rw [heq]
        have := ((hpos e he).2 a ha).2
        omega

/-- Helper: the complete evaluation of `get_detail_data` on the
all-successful environment `allOkIface`. -/
theorem allOkIface_run :
    get_detail_data DeviceDescriptor.default HState.init [allOkIface] =
      DetailResult.normal allOkResultD ⟨2, []⟩ := by
  simp [get_detail_data, get_detail_data_go, process_iface, run_battery,
    closeOpt, allOkIface, noVolumes, absentVolume, get_device_number,
    get_mount_points, get_mount_points_go, get_available_volumes,
    get_available_volumes_go, HState.openNew, HState.init, HState.close,
    get_device_size, get_partition_table_type, get_adapter_info,
    get_device_block_size, get_bus_type, errCode, i64AsU64, allOkResultD,
    DeviceDescriptor.default, MountPoint.new, dwordAsI32,
    PARTITION_STYLE_MBR, PARTITION_STYLE_GPT, DRIVE_FIXED, DRIVE_REMOVABLE]
  decide

/-- Witness for `block_sizes_default_or_queried`: the fully successful run
of `allOkIface` overrides `blockSize` with the alignment query's 4096 and
keeps `logicalBlockSize` at the alignment query's 512; both nonzero. -/
theorem block_sizes_default_or_queried_witness :
    get_detail_data DeviceDescriptor.default HState.init [allOkIface] =
      DetailResult.normal allOkResultD ⟨2, []⟩ ∧
    (∀ e ∈ [allOkIface], sectorsPositive e) ∧
    allOkResultD.blockSize ≠ 0 ∧ allOkResultD.logicalBlockSize ≠ 0 :=
  have hrun : get_detail_data DeviceDescriptor.default HState.init
      [allOkIface] = DetailResult.normal allOkResultD ⟨2, []⟩ :=
    allOkIface_run
  have hpos : ∀ e ∈ [allOkIface], sectorsPositive e := by
    intro e he
    rcases List.mem_singleton.mp he with rfl
    constructor
    · intro g hg
      simp only [allOkIface] at hg
      injection hg with hg
      rw [← hg]
      decide
    · intro a ha
      simp only [allOkIface] at ha
      injection ha with ha
      rw [← ha]
      decide
  ⟨hrun, hpos,
    (block_sizes_default_or_queried.2 [allOkIface] HState.init allOkResultD
      ⟨2, []⟩ hrun).2 hpos⟩

/-- C8 (amended): `mountpointLabels` is never populated — the
structured-listing probe always produces it empty, and the native-query
probe never modifies it from the input descriptor (so it stays empty for
a descriptor started from the default). -/
theorem mountpoint_labels_always_empty :
    (∀ disk : Disk, (DeviceDescriptor.fromDisk disk).mountpointLabels = []) ∧
    (∀ (envs : List IfaceEnv) (d : DeviceDescriptor) (hs : HState)
      (d₂ : DeviceDescriptor) (hs₂ : HState),
      get_detail_data d hs envs = DetailResult.normal d₂ hs₂ →
      d₂.mountpointLabels = d.mountpointLabels) := by
  constructor
  · intro disk
    rfl
  · intro envs d hs d₂ hs₂ h
    exact (get_detail_data_go_frame envs d none hs d₂ hs₂ h).2.2

/-- Witness for `mountpoint_labels_always_empty`: the all-successful run
keeps `mountpointLabels` empty. -/
theorem mountpoint_labels_always_empty_witness :
    allOkResultD.mountpointLabels = DeviceDescriptor.default.mountpointLabels :=
  mountpoint_labels_always_empty.2 [allOkIface] DeviceDescriptor.default
    HState.init allOkResultD ⟨2, []⟩ allOkIface_run

/-- Helper: a string with a nonempty left part is nonempty. -/
theorem append_ne_empty_left (s t : String) (h : s.length ≠ 0) :
    s ++ t ≠ "" := by
  intro hc
  have hlen := congrArg String.length hc
  simp at hlen
  exact h hlen.1

/-- Helper: on a successful layout query, the descriptor
`get_partition_table_type` returns differs from its input only in
`partitionTableType`, which holds the source's classification. -/
theorem get_partition_table_type_ok_fst (d : DeviceDescriptor)
    (l : LayoutResult) :
    (get_partition_table_type d (Except.ok l)).1 =
      { d with partitionTableType :=
          if l.partitionStyle = PARTITION_STYLE_MBR ∧
              l.partitionCount % 4 = 0 then some "mbr"
          else if l.partitionStyle = PARTITION_STYLE_GPT then some "gpt"
          else d.partitionTableType } := by
  simp only [get_partition_table_type]
  split
  · rfl
  · split <;> rfl

/-- C1: when every step up to the property battery succeeds (interface
enumerated, detail sized and filled, volume handle opened, a nonnegative
device number resolved, mount points correlated, physical handle opened)
and then any single battery query — geometry, partition layout, adapter
info, or block size — fails, `get_detail_data` returns normally (no panic,
no abort of the call), sets the descriptor's `error` to a nonempty
human-readable cause, retains every field populated by the earlier
successful steps and queries, and skips the remaining queries (later
fields keep the input descriptor's values and the writability probe never
runs). -/
theorem battery_failure_soft_error (d0 : DeviceDescriptor) (hs : HState)
    (rest : List IfaceEnv) (sz : SizingOutcome) (dn : DevNumEnv)
    (me : MountEnv) (geo : Except Nat GeometryResult)
    (lay : Except Nat LayoutResult) (adp : Except Nat AdapterResult)
    (aln : Except Nat AlignmentResult) (w : Bool)
    (hsz : sz ≠ SizingOutcome.otherError)
    (hdn : 0 ≤ get_device_number dn)
    (hmp : (get_mount_points (get_device_number dn) me
      (hs.openNew).2).err = none)
    (hfail : (∃ c, geo = Except.error c) ∨
      (∃ g c, geo = Except.ok g ∧ lay = Except.error c) ∨
      (∃ g l c, geo = Except.ok g ∧ lay = Except.ok l ∧
        adp = Except.error c) ∨
      (∃ g l a c, geo = Except.ok g ∧ lay = Except.ok l ∧
        adp = Except.ok a ∧ aln = Except.error c)) :
    (get_detail_data d0 hs
      ({ enumOutcome := EnumOutcome.ok, sizing := sz, fillOk := true,
         volumeOpenOk := true, devNum := dn, mountEnv := me,
         physicalOpenOk := true, geometry := geo, layout := lay,
         adapter := adp, alignment := aln,
         isWritableOk := w } :: rest)).isNormal = true ∧
    ∀ d₂ hs₂,
      get_detail_data d0 hs
        ({ enumOutcome := EnumOutcome.ok, sizing := sz, fillOk := true,
           volumeOpenOk := true, devNum := dn, mountEnv := me,
           physicalOpenOk := true, geometry := geo, layout := lay,
           adapter := adp, alignment := aln,
           isWritableOk := w } :: rest) = DetailResult.normal d₂ hs₂ →
      (∃ m, d₂.error = some m ∧ m ≠ "") ∧
      d₂.raw = "\\\\.\\PhysicalDrive" ++ toString (get_device_number dn) ∧
      d₂.device = d₂.raw ∧
      d₂.mountpoints = d0.mountpoints ++
        (get_mount_points (get_device_number dn) me (hs.openNew).2).points ∧
      d₂.logicalBlockSize = d0.logicalBlockSize ∧
      d₂.isReadOnly = d0.isReadOnly ∧
      (∀ c, geo = Except.error c → d₂.size = d0.size ∧
        d₂.blockSize = d0.blockSize ∧
        d₂.partitionTableType = d0.partitionTableType ∧
        d₂.busType = d0.busType ∧ d₂.busVersion = d0.busVersion) ∧
      (∀ g, geo = Except.ok g → d₂.size = i64AsU64 g.diskSizeQuadPart ∧
        d₂.blockSize = g.bytesPerSector) ∧
      (∀ g c, geo = Except.ok g → lay = Except.error c →
        d₂.partitionTableType = d0.partitionTableType ∧
        d₂.busType = d0.busType ∧ d₂.busVersion = d0.busVersion) ∧
      (∀ g l, geo = Except.ok g → lay = Except.ok l →
        d₂.partitionTableType =
          (if l.partitionStyle = PARTITION_STYLE_MBR ∧
              l.partitionCount % 4 = 0 then some "mbr"
           else if l.partitionStyle = PARTITION_STYLE_GPT then some "gpt"
           else d0.partitionTableType)) ∧
      (∀ g l c, geo = Except.ok g → lay = Except.ok l →
        adp = Except.error c →
        d₂.busType = d0.busType ∧ d₂.busVersion = d0.busVersion) ∧
      (∀ g l a, geo = Except.ok g → lay = Except.ok l →
        adp = Except.ok a →
        d₂.busType = some (get_bus_type a.busType) ∧
        d₂.busVersion = some (toString a.busMajorVersion ++ "." ++
          toString a.busMinorVersion)) := by
  have hn : ¬ get_device_number dn < 0 := not_lt.mpr hdn
  cases sz with
  | otherError => exact absurd rfl hsz
  | firstCallSucceeded =>
    rcases hfail with ⟨c, rfl⟩ | ⟨g, c, rfl, rfl⟩ | ⟨g, l, c, rfl, rfl, rfl⟩ |
      ⟨g, l, a, c, rfl, rfl, rfl, rfl⟩ <;>
      (constructor
       · simp [get_detail_data, get_detail_data_go, process_iface,
           run_battery, closeOpt, get_device_size, get_adapter_info,
           get_device_block_size, get_partition_table_type_error_eq,
           get_partition_table_type_ok_snd, get_partition_table_type_ok_fst,
           errCode, hmp, hn, DetailResult.isNormal]
       · intro d₂ hs₂ heq
         simp [get_detail_data, get_detail_data_go, process_iface,
           run_battery, closeOpt, get_device_size, get_adapter_info,
           get_device_block_size, get_partition_table_type_error_eq,
           get_partition_table_type_ok_snd, get_partition_table_type_ok_fst,
           errCode, hmp, hn] at heq
         obtain ⟨h₁, h₂⟩ := heq
         subst h₁
         subst h₂
         refine ⟨⟨_, rfl, append_ne_empty_left _ _ (by decide)⟩,
           rfl, rfl, rfl, rfl, rfl, ?_, ?_, ?_, ?_, ?_, ?_⟩ <;>
           intros <;> simp_all)
  | insufficientBuffer rs =>
    rcases hfail with ⟨c, rfl⟩ | ⟨g, c, rfl, rfl⟩ | ⟨g, l, c, rfl, rfl, rfl⟩ |
      ⟨g, l, a, c, rfl, rfl, rfl, rfl⟩ <;>
      (constructor
       · simp [get_detail_data, get_detail_data_go, process_iface,
           run_battery, closeOpt, get_device_size, get_adapter_info,
           get_device_block_size, get_partition_table_type_error_eq,
           get_partition_table_type_ok_snd, get_partition_table_type_ok_fst,
           errCode, hmp, hn, DetailResult.isNormal]
       · intro d₂ hs₂ heq
         simp [get_detail_data, get_detail_data_go, process_iface,
           run_battery, closeOpt, get_device_size, get_adapter_info,
           get_device_block_size, get_partition_table_type_error_eq,
           get_partition_table_type_ok_snd, get_partition_table_type_ok_fst,
           errCode, hmp, hn] at heq
         obtain ⟨h₁, h₂⟩ := heq
         subst h₁
         subst h₂
         refine ⟨⟨_, rfl, append_ne_empty_left _ _ (by decide)⟩,
           rfl, rfl, rfl, rfl, rfl, ?_, ?_, ?_, ?_, ?_, ?_⟩ <;>
           intros <;> simp_all)

/-- Witness for `battery_failure_soft_error`: device number 3, no mounted
volumes, and a geometry query failing with error code 5. -/
theorem battery_failure_soft_error_witness :
    (SizingOutcome.insufficientBuffer 10 ≠ SizingOutcome.otherError) ∧
    0 ≤ get_device_number ⟨none, some 3⟩ ∧
    (get_mount_points (get_device_number ⟨none, some 3⟩) noVolumes
      ((HState.init).openNew).2).err = none ∧
    (get_detail_data DeviceDescriptor.default HState.init
      [{ enumOutcome := EnumOutcome.ok,
         sizing := SizingOutcome.insufficientBuffer 10, fillOk := true,
         volumeOpenOk := true, devNum := ⟨none, some 3⟩,
         mountEnv := noVolumes, physicalOpenOk := true,
         geometry := Except.error 5,
         layout := Except.ok ⟨0, 4⟩, adapter := Except.ok ⟨7, 2, 0⟩,
         alignment := Except.ok ⟨512, 4096⟩,
         isWritableOk := true }]).isNormal = true :=
  have h₃ : (get_mount_points (get_device_number ⟨none, some 3⟩) noVolumes
      ((HState.init).openNew).2).err = none := by
    simp [get_mount_points, get_mount_points_go, get_available_volumes,
      get_available_volumes_go, noVolumes, get_device_number, dwordAsI32]
  ⟨by decide, by decide, h₃,
    (battery_failure_soft_error DeviceDescriptor.default HState.init []
      (SizingOutcome.insufficientBuffer 10) ⟨none, some 3⟩ noVolumes
      (Except.error 5) (Except.ok ⟨0, 4⟩) (Except.ok ⟨7, 2, 0⟩)
      (Except.ok ⟨512, 4096⟩) true (by decide) (by decide) h₃
      (Or.inl ⟨5, rfl⟩)).1⟩

/-- Helper: every letter produced by the `GetLogicalDrives` bitmask walk
lies in `[letter, letter + b)` when the remaining mask fits in `b` bits
(and the range stays below the surrogate gap). -/
theorem get_available_volumes_go_bounds :
    ∀ (b mask letter : Nat), mask < 2 ^ b → letter + b ≤ 55296 →
      ∀ c ∈ get_available_volumes_go mask letter,
        letter ≤ c.toNat ∧ c.toNat < letter + b := by
  intro b
  induction b with
  | zero =>
    intro mask letter hm _ c hc
    have h0 : mask = 0 := by omega
    subst h0
    rw [get_available_volumes_go] at hc
    simp at hc
  | succ b ih =>
    intro mask letter hm hl c hc
    rw [get_available_volumes_go] at hc
    by_cases h0 : mask = 0
    · simp [h0] at hc
    · rw [if_neg h0] at hc
      have hdiv : mask / 2 < 2 ^ b := by
        have h2 : 2 ^ (b + 1) = 2 ^ b * 2 := pow_succ 2 b
        omega
      rcases List.mem_append.mp hc with h₁ | h₁
      · have hc' : c = Char.ofNat letter := by
          by_cases hb : mask % 2 = 1
          · rw [if_pos hb] at h₁
            exact List.mem_singleton.mp h₁
          · rw [if_neg hb] at h₁
            cases h₁
        subst hc'
        rw [char_toNat_ofNat letter (by omega)]
        omega
      · have hrec := ih (mask / 2) (letter + 1) hdiv (by omega) c h₁
        omega

/-- Helper: the bitmask walk produces letters in strictly ascending
order. -/
theorem get_available_volumes_go_pairwise :
    ∀ (b mask letter : Nat), mask < 2 ^ b → letter + b ≤ 55296 →
      List.Pairwise (fun a c => a.toNat < c.toNat)
        (get_available_volumes_go mask letter) := by
  intro b
  induction b with
  | zero =>
    intro mask letter hm _
    have h0 : mask = 0 := by omega
    subst h0
    rw [get_available_volumes_go]
    simp
  | succ b ih =>
    intro mask letter hm hl
    rw [get_available_volumes_go]
    by_cases h0 : mask = 0
    · simp [h0]
    · rw [if_neg h0]
      have hdiv : mask / 2 < 2 ^ b := by
        have h2 : 2 ^ (b + 1) = 2 ^ b * 2 := pow_succ 2 b
        omega
      refine List.pairwise_append.mpr ⟨?_, ?_, ?_⟩
      · by_cases hb : mask % 2 = 1 <;> simp [hb]
      · exact ih (mask / 2) (letter + 1) hdiv (by omega)
      · intro a ha c hc
        have hbound := get_available_volumes_go_bounds b (mask / 2)
          (letter + 1) hdiv (by omega) c hc
        have ha' : a = Char.ofNat letter := by
          by_cases hb : mask % 2 = 1
          · rw [if_pos hb] at ha
            exact List.mem_singleton.mp ha
          · rw [if_neg hb] at ha
            cases ha
        subst ha'
        rw [char_toNat_ofNat letter (by omega)]
        omega

/-- C10: every mount point the native-query probe appends has as path
exactly the drive-letter root form of a letter from the logical-drive
bitmask; for any bitmask confined to bits 0-25 (as `GetLogicalDrives`
guarantees) those letters are `A`..`Z`, and they are walked in strictly
ascending order.  The volume root path resolved by the mount-root query
feeds only the free-space query; the appended path is always the
drive-letter root built before it. -/
theorem mount_paths_drive_letter_roots :
    (∀ mask, mask < 2 ^ 26 → ∀ c ∈ get_available_volumes mask,
      65 ≤ c.toNat ∧ c.toNat ≤ 90) ∧
    (∀ mask, List.Pairwise (fun a c => a.toNat < c.toNat)
      (get_available_volumes mask)) ∧
    (∀ (n : Int) (env : MountEnv) (hs : HState) (mp : MountPoint),
      mp ∈ (get_mount_points n env hs).points →
      ∃ c ∈ get_available_volumes env.logicalDriveMask,
        mp.path = String.singleton c ++ ":\\") := by
  refine ⟨?_, ?_, ?_⟩
  · intro mask hm c hc
    have hmask : mask % 2 ^ 32 = mask := Nat.mod_eq_of_lt (by omega)
    unfold get_available_volumes at hc
    rw [hmask] at hc
    have hb := get_available_volumes_go_bounds 26 mask 65 hm (by norm_num) c hc
    omega
  · intro mask
    unfold get_available_volumes
    exact get_available_volumes_go_pairwise 32 (mask % 2 ^ 32) 65
      (Nat.mod_lt _ (by norm_num)) (by norm_num)
  · intro n env hs mp h
    rcases get_mount_points_go_points_mem n env _ _ _ mp h with
      h' | ⟨c, hc, hp, _⟩
    · simp at h'
    · exact ⟨c, hc, hp⟩

/-- Witness for `mount_paths_drive_letter_roots`: the one mount point of
`oneVolumeEnv` (bitmask 4, letter `C`) has the drive-letter-root path, and
the bitmask-4 letters all lie in `A`..`Z`. -/
theorem mount_paths_drive_letter_roots_witness :
    ({ path := "C:\\", label := none, totalBytes := some 409600, availableBytes := some 40960 } : MountPoint) ∈
      (get_mount_points 0 oneVolumeEnv HState.init).points ∧
    (∃ c ∈ get_available_volumes oneVolumeEnv.logicalDriveMask,
      ({ path := "C:\\", label := none, totalBytes := some 409600, availableBytes := some 40960 } : MountPoint).path =
        String.singleton c ++ ":\\") ∧
    (4 : Nat) < 2 ^ 26 ∧
    (∀ c ∈ get_available_volumes 4, 65 ≤ c.toNat ∧ c.toNat ≤ 90) :=
  have hmem : ({ path := "C:\\", label := none, totalBytes := some 409600, availableBytes := some 40960 } : MountPoint) ∈
      (get_mount_points 0 oneVolumeEnv HState.init).points := by
    simp [get_mount_points, get_available_volumes, get_available_volumes_go,
      get_mount_points_go, oneVolumeEnv, fixedVolumeC, get_device_number,
      dwordAsI32, HState.openNew, HState.init, DRIVE_FIXED, DRIVE_REMOVABLE,
      MountPoint.new, String.singleton]
    decide
  ⟨hmem,
    mount_paths_drive_letter_roots.2.2 0 oneVolumeEnv HState.init _ hmem,
    by norm_num,
    mount_paths_drive_letter_roots.1 4 (by norm_num)⟩
